import Mathlib

/-!
Shallow embedding of the webhook / collection-resolution subsystem of the
helius-sdk TypeScript client (src/Helius.ts, src/types/types.ts).

Modelling conventions:
* TypeScript string-enum types (`TransactionType`, `WebhookType`, `TxnStatus`,
  `AccountWebhookEncoding`) are modelled as `String`.
* A field that may be `undefined`/`null`/absent is modelled as `Option _`;
  `none` stands for both `undefined` and `null` (the source only distinguishes
  them through `??` and `!= undefined`, which treat the two alike).
* JS string truthiness (`if (authHeader)`, `while (mints.paginationToken)`)
  is `truthyStr` below: a string is truthy iff it is nonempty; an
  absent/null value is falsy.
* Remote HTTP calls are modelled by passing the sequence of call outcomes in
  as an explicit trace: `Except String MintlistResponse` is the outcome of one
  `getMintlist` round trip (`.error e` = the call threw with message `e`).
  A function that would issue a write (axios.put / createWebhook POST)
  instead returns the payload it would submit, so "no write is issued" is
  "the function returns `.error`".
* TS `Error` stringification inside template literals (`${err}`) is abstracted
  to the carried message string.
-/

/-- `MintlistItem` of types.ts (lines 63-66). -/
structure MintlistItem where
  mint : String
  name : String
deriving Repr, DecidableEq

/-- `MintlistResponse` of types.ts (lines 53-56). The TS type declares
`paginationToken : string` (required), but the runtime value coming back from
the service may be absent; `none` models an absent/null token. -/
structure MintlistResponse where
  result : List MintlistItem
  paginationToken : Option String
deriving Repr, DecidableEq

/-- `CollectionIdentifier` of types.ts (lines 36-39): two optional selector
fields. -/
structure CollectionIdentifier where
  firstVerifiedCreators : Option (List String) := none
  verifiedCollectionAddresses : Option (List String) := none
deriving Repr, DecidableEq

/-- `HeliusOptions` of types.ts (lines 17-20). -/
structure HeliusOptions where
  limit : Option Nat := none
  paginationToken : Option String := none
deriving Repr, DecidableEq

/-- `Webhook` of types.ts (lines 22-34). Server-owned record. -/
structure Webhook where
  webhookID : String
  wallet : String
  project : String
  webhookURL : String
  transactionTypes : List String
  accountAddresses : List String
  accountAddressOwners : Option (List String) := none
  webhookType : Option String := none
  authHeader : Option String := none
  txnStatus : Option String := none
  encoding : Option String := none
deriving Repr, DecidableEq

/-- `CreateWebhookRequest` of types.ts (lines 41-44):
`Omit<Webhook, 'webhookID' | 'wallet' | 'project'>`. `accountAddresses`,
`webhookURL` and `transactionTypes` are required there; the rest stay
optional, and `none` means the key is absent from the JSON payload. -/
structure CreateWebhookRequest where
  webhookURL : String
  transactionTypes : List String
  accountAddresses : List String
  accountAddressOwners : Option (List String) := none
  webhookType : Option String := none
  authHeader : Option String := none
  txnStatus : Option String := none
  encoding : Option String := none
deriving Repr, DecidableEq

/-- `EditWebhookRequest` of types.ts (lines 45-47): every caller-mutable
field optional. -/
structure EditWebhookRequest where
  webhookURL : Option String := none
  transactionTypes : Option (List String) := none
  accountAddresses : Option (List String) := none
  accountAddressOwners : Option (List String) := none
  webhookType : Option String := none
  authHeader : Option String := none
  txnStatus : Option String := none
  encoding : Option String := none
deriving Repr, DecidableEq

/-- `CreateCollectionWebhookRequest` of types.ts (lines 49-51): extends
`CreateWebhookRequest` with a `collectionQuery`. `collectionQuery` is required
in the TS type, but `createCollectionWebhook` guards `request?.collectionQuery
== undefined`, so it is modelled as optional here (`none` also covers an
absent `request`). -/
structure CreateCollectionWebhookRequest where
  webhookURL : String
  transactionTypes : List String
  accountAddresses : List String
  accountAddressOwners : Option (List String) := none
  webhookType : Option String := none
  authHeader : Option String := none
  txnStatus : Option String := none
  encoding : Option String := none
  collectionQuery : Option CollectionIdentifier := none
deriving Repr, DecidableEq

/-- `MintlistRequest` of types.ts (lines 58-61). `query` is required in the TS
type but `getMintlist` guards `request?.query == undefined`, so it is
modelled as optional (`none` also covers an absent `request`). -/
structure MintlistRequest where
  query : Option CollectionIdentifier
  options : Option HeliusOptions := none
deriving Repr, DecidableEq

/-- JS truthiness of an optional string: `undefined`/`null` and `""` are
falsy, every other string is truthy. -/
def truthyStr : Option String → Bool
  | none => false
  | some s => !(s == "")

/-- Validation prefix of `getMintlist` (Helius.ts lines 325-338): reject an
absent query object, then reject a query with both selector kinds defined.
Returns the thrown error message, or `none` when validation passes. -/
def validateMintlistQuery (q : Option CollectionIdentifier) : Option String :=
  match q with
  | none => some "must provide query object."
  | some cq =>
    if cq.firstVerifiedCreators.isSome && cq.verifiedCollectionAddresses.isSome then
      some "cannot provide both firstVerifiedCreators and verifiedCollectionAddresses. Please only provide one."
    else
      none

/-- `getMintlist` (Helius.ts lines 324-354): validate, then POST to
`/v1/mintlist`. The single HTTP round trip's outcome is the `resp` argument;
a transport failure is wrapped with the operation name. -/
def getMintlist (request : MintlistRequest) (resp : Except String MintlistResponse) :
    Except String MintlistResponse :=
  match validateMintlistQuery request.query with
  | some msg => .error msg
  | none =>
    match resp with
    | .ok data => .ok data
    | .error e => .error ("error during getMintlist: " ++ e)

/-- Validation prefix of `createCollectionWebhook` (Helius.ts lines 252-265):
reject an absent `collectionQuery`, then reject both selector kinds defined. -/
def validateCollectionQuery (q : Option CollectionIdentifier) : Option String :=
  match q with
  | none => some "must provide collectionQuery object."
  | some cq =>
    if cq.firstVerifiedCreators.isSome && cq.verifiedCollectionAddresses.isSome then
      some "cannot provide both firstVerifiedCreators and verifiedCollectionAddresses. Please only provide one."
    else
      none

/-- The query object `createCollectionWebhook` builds for its `getMintlist`
calls (Helius.ts lines 267-275): `{ firstVerifiedCreators }` when that
selector is defined, else `{ verifiedCollectionAddresses }`. -/
def collectionQueryToMintQuery (cq : CollectionIdentifier) : CollectionIdentifier :=
  match cq.firstVerifiedCreators with
  | some f => { firstVerifiedCreators := some f }
  | none => { verifiedCollectionAddresses := cq.verifiedCollectionAddresses }

/-- Continuation of the pagination loop of `createCollectionWebhook`
(Helius.ts lines 286-295): `last` is the most recent response, `acc` the
accumulated mintlist, `n` the number of page requests issued so far, and
`trace` the outcomes of the remaining `getMintlist` calls in issue order.
While the last token is truthy another page request is issued (consuming the
next trace entry; an exhausted trace is a transport failure on that request);
when the token is falsy the loop stops with the accumulator. -/
def drainFrom : List (Except String MintlistResponse) → List MintlistItem →
    MintlistResponse → Nat → Except String (List MintlistItem × Nat)
  | trace, acc, last, n =>
    if truthyStr last.paginationToken then
      match trace with
      | [] => .error "error during getMintlist: network error"
      | .error e :: _ => .error e
      | .ok r :: trace' => drainFrom trace' (acc ++ r.result) r (n + 1)
    else
      .ok (acc, n)

/-- The whole drain of `createCollectionWebhook` (Helius.ts lines 277-295):
one unconditional first page request, then `drainFrom`. Returns the complete
mintlist together with the number of page requests issued. -/
def drainMintlist (trace : List (Except String MintlistResponse)) :
    Except String (List MintlistItem × Nat) :=
  match trace with
  | [] => .error "error during getMintlist: network error"
  | .error e :: _ => .error e
  | .ok r :: trace' => drainFrom trace' r.result r 1

/-- The create-webhook payload `createCollectionWebhook` builds from the
drained mintlist (Helius.ts lines 297-308): object literal with `webhookURL`,
`accountAddresses := mintlist.map(x => x.mint)` and `transactionTypes`, then
`authHeader` and `webhookType` added only when truthy. -/
def buildCollectionPayload (request : CreateCollectionWebhookRequest)
    (mintlist : List MintlistItem) : CreateWebhookRequest :=
  let payload : CreateWebhookRequest :=
    { webhookURL := request.webhookURL
      accountAddresses := mintlist.map (fun x => x.mint)
      transactionTypes := request.transactionTypes }
  let payload :=
    if truthyStr request.authHeader then
      { payload with authHeader := request.authHeader }
    else payload
  if truthyStr request.webhookType then
    { payload with webhookType := request.webhookType }
  else payload

/-- `createCollectionWebhook` (Helius.ts lines 249-322): validate the
collection query, drain the full mintlist via repeated `getMintlist` calls
(outcomes given by `trace`), build the create payload, and submit it.
`.ok payload` means the create call is issued with exactly `payload`;
`.error` means no create call is issued. A failure inside the try block is
wrapped with the operation name by the catch. (The inner `getMintlist`
validation always passes for the query built at lines 267-275, see
`validateMintlistQuery_mintQuery` below.) -/
def createCollectionWebhook (request : CreateCollectionWebhookRequest)
    (trace : List (Except String MintlistResponse)) :
    Except String CreateWebhookRequest :=
  match validateCollectionQuery request.collectionQuery with
  | some msg => .error msg
  | none =>
    match drainMintlist trace with
    | .error e => .error ("error during createCollectionWebhook: " ++ e)
    | .ok (mintlist, _) => .ok (buildCollectionPayload request mintlist)

/-- `_editWebhook`'s merge step (Helius.ts lines 386-400): the fully
populated edit request submitted to the PUT endpoint. Each field is
`editWebhookRequest.field ?? existingWebhook.field`; `??` only falls through
on `undefined`/`null`, so the caller's value wins whenever present. The
function returns the payload that is PUT. -/
def editWebhookMerge (existingWebhook : Webhook)
    (editWebhookRequest : EditWebhookRequest) : EditWebhookRequest :=
  { webhookURL := some (match editWebhookRequest.webhookURL with
      | some v => v
      | none => existingWebhook.webhookURL)
    transactionTypes := some (match editWebhookRequest.transactionTypes with
      | some v => v
      | none => existingWebhook.transactionTypes)
    accountAddresses := some (match editWebhookRequest.accountAddresses with
      | some v => v
      | none => existingWebhook.accountAddresses)
    accountAddressOwners := match editWebhookRequest.accountAddressOwners with
      | some v => some v
      | none => existingWebhook.accountAddressOwners
    webhookType := match editWebhookRequest.webhookType with
      | some v => some v
      | none => existingWebhook.webhookType
    authHeader := match editWebhookRequest.authHeader with
      | some v => some v
      | none => existingWebhook.authHeader
    txnStatus := match editWebhookRequest.txnStatus with
      | some v => some v
      | none => existingWebhook.txnStatus
    encoding := match editWebhookRequest.encoding with
      | some v => some v
      | none => existingWebhook.encoding }

/-- `appendAddressesToWebhook` (Helius.ts lines 189-215): fetch the webhook
(the fetched record is the `webhook` argument), concatenate its addresses
with the new ones, throw when the result exceeds 100,000, otherwise submit
`{ accountAddresses }` through `_editWebhook`. `.ok p` means the PUT is
issued with payload `p`; `.error` means no write call is issued. The thrown
capacity error is re-wrapped by the function's own catch block. -/
def appendAddressesToWebhook (webhook : Webhook)
    (newAccountAddresses : List String) : Except String EditWebhookRequest :=
  let accountAddresses := webhook.accountAddresses ++ newAccountAddresses
  if accountAddresses.length > 100000 then
    .error ("error during appendAddressesToWebhook: Error: " ++
      "a single webhook cannot contain more than 100,000 addresses")
  else
    .ok (editWebhookMerge webhook { accountAddresses := some accountAddresses })

/-- The address filter of `removeAddressesFromWebhook` (Helius.ts lines
231-233): keep each existing address not contained in the removal list
(exact string match). -/
def removeAddresses (existing addressesToRemove : List String) : List String :=
  existing.filter (fun address => !(addressesToRemove.contains address))

/-- `removeAddressesFromWebhook` (Helius.ts lines 224-247): fetch the webhook
(the fetched record is the `webhook` argument), filter out the addresses to
remove, and submit `{ accountAddresses }` through `_editWebhook`. The result
is the payload PUT to the edit endpoint. -/
def removeAddressesFromWebhook (webhook : Webhook)
    (addressesToRemove : List String) : EditWebhookRequest :=
  editWebhookMerge webhook
    { accountAddresses := some (removeAddresses webhook.accountAddresses addressesToRemove) }

/-- Concrete fixture: a mintlist item. -/
def itemA : MintlistItem := { mint := "mintA", name := "A" }

/-- Concrete fixture: a second mintlist item. -/
def itemB : MintlistItem := { mint := "mintB", name := "B" }

/-- Concrete fixture: a page whose pagination token is truthy. -/
def pageWithToken : MintlistResponse :=
  { result := [itemA], paginationToken := some "cursor1" }

/-- Concrete fixture: a final page with an absent pagination token. -/
def pageFinal : MintlistResponse :=
  { result := [itemB], paginationToken := none }

/-- Concrete fixture: a small webhook record. -/
def webhookFx : Webhook :=
  { webhookID := "id", wallet := "w", project := "p"
    webhookURL := "https://example.com/hook"
    transactionTypes := ["NFT_SALE"]
    accountAddresses := ["addr1", "addr2"] }

/-- Concrete fixture: a webhook already holding 100,000 addresses. -/
def bigWebhookFx : Webhook :=
  { webhookFx with accountAddresses := List.replicate 100000 "addr" }

/-- Concrete fixture: a collection-webhook request with one selector kind. -/
def collectionRequestFx : CreateCollectionWebhookRequest :=
  { webhookURL := "https://example.com/hook"
    transactionTypes := ["NFT_SALE"]
    accountAddresses := []
    collectionQuery := some { firstVerifiedCreators := some ["creator1"] } }

/-- Concrete fixture: a collection-webhook request that also supplies every
field `createCollectionWebhook` is expected to ignore. -/
def extrasRequestFx : CreateCollectionWebhookRequest :=
  { webhookURL := "https://example.com/hook"
    transactionTypes := ["NFT_SALE"]
    accountAddresses := ["junkAddr"]
    accountAddressOwners := some ["owner1"]
    txnStatus := some "all"
    encoding := some "jsonParsed"
    collectionQuery := some { verifiedCollectionAddresses := some ["coll1"] } }

/-- The `getMintlist` validation always passes for the query object
`createCollectionWebhook` builds, so the pagination-loop model need not
re-validate inside the loop. -/
theorem validateMintlistQuery_mintQuery (cq : CollectionIdentifier) :
    validateMintlistQuery (some (collectionQueryToMintQuery cq)) = none := by
  cases h : cq.firstVerifiedCreators <;>
    simp [validateMintlistQuery, collectionQueryToMintQuery, h]

/-- Loop invariant of the drain: starting from a response with a truthy
token, consuming a trace of successful pages whose tokens are all truthy
except the final one, the loop appends every page's items in order and
issues one request per consumed page. -/
theorem drainFrom_goodTrace (ps : List MintlistResponse) (last : MintlistResponse) :
    ∀ (cur : MintlistResponse) (acc : List MintlistItem) (n : Nat),
    truthyStr cur.paginationToken = true →
    (∀ p ∈ ps, truthyStr p.paginationToken = true) →
    truthyStr last.paginationToken = false →
    drainFrom ((ps ++ [last]).map Except.ok) acc cur n =
      .ok (acc ++ ((ps ++ [last]).map MintlistResponse.result).flatten,
           n + ps.length + 1) := by
  induction ps with
  | nil =>
    intro cur acc n hcur _ hlast
    rw [drainFrom.eq_def]
    simp only [hcur, if_true, List.nil_append, List.map_cons, List.map_nil]
    rw [drainFrom.eq_def]
    simp [hlast]
  | cons p ps ih =>
    intro cur acc n hcur hps hlast
    rw [drainFrom.eq_def]
    simp only [hcur, if_true, List.cons_append, List.map_cons]
    rw [ih p (acc ++ p.result) (n + 1) (hps p (by simp))
      (fun q hq => hps q (by simp [hq])) hlast]
    simp only [List.flatten_cons, List.append_assoc, List.length_cons]
    congr 2
    omega

/-- C1: the drain performed by `createCollectionWebhook` aggregates exactly
the concatenation, in page order, of the items of each returned page, issues
exactly one page request per page returned, and the aggregated list's length
is the sum of the per-page item counts. The server trace is any sequence of
successful pages whose pagination tokens are all truthy except the last. -/
theorem createCollectionWebhook_drain_concatenates (pages : List MintlistResponse)
    (last : MintlistResponse)
    (hpages : ∀ p ∈ pages, truthyStr p.paginationToken = true)
    (hlast : truthyStr last.paginationToken = false) :
    drainMintlist ((pages ++ [last]).map Except.ok) =
      .ok (((pages ++ [last]).map MintlistResponse.result).flatten,
           (pages ++ [last]).length) ∧
    (((pages ++ [last]).map MintlistResponse.result).flatten).length =
      ((pages ++ [last]).map (fun r => r.result.length)).sum := by
  constructor
  · cases pages with
    | nil =>
      rw [drainMintlist.eq_def]
      simp only [List.nil_append, List.map_cons, List.map_nil]
      rw [drainFrom.eq_def]
      simp [hlast]
    | cons p ps =>
      rw [drainMintlist.eq_def]
      simp only [List.cons_append, List.map_cons]
      rw [drainFrom_goodTrace ps last p p.result 1 (hpages p (by simp))
        (fun q hq => hpages q (by simp [hq])) hlast]
      simp only [List.flatten_cons, List.length_cons, List.length_append,
        List.length_cons, List.length_nil]
      congr 2
      omega
  · rw [List.length_flatten]
    simp only [List.map_map]
    rfl

/-- C1 witness: a concrete two-page drain (one token-bearing page, one final
page) aggregates both pages' items in order with one request per page. -/
theorem createCollectionWebhook_drain_concatenates_witness :
    ((∀ p ∈ [pageWithToken], truthyStr p.paginationToken = true) ∧
      truthyStr pageFinal.paginationToken = false) ∧
    (drainMintlist (([pageWithToken] ++ [pageFinal]).map Except.ok) =
        .ok ((([pageWithToken] ++ [pageFinal]).map MintlistResponse.result).flatten,
             ([pageWithToken] ++ [pageFinal]).length) ∧
      ((([pageWithToken] ++ [pageFinal]).map MintlistResponse.result).flatten).length =
        (([pageWithToken] ++ [pageFinal]).map (fun r => r.result.length)).sum) :=
  ⟨⟨by decide, by decide⟩,
    createCollectionWebhook_drain_concatenates [pageWithToken] pageFinal
      (by decide) (by decide)⟩

/-- C2: `appendAddressesToWebhook` fails with the capacity error and issues
no write call when the existing addresses concatenated with the additions
exceed 100,000; otherwise (including exactly 100,000) the written payload's
address list is exactly `existing ++ new`, order preserving, no dedup. -/
theorem appendAddressesToWebhook_capacity (webhook : Webhook)
    (newAccountAddresses : List String) :
    (webhook.accountAddresses.length + newAccountAddresses.length > 100000 →
      appendAddressesToWebhook webhook newAccountAddresses =
        .error ("error during appendAddressesToWebhook: Error: " ++
          "a single webhook cannot contain more than 100,000 addresses")) ∧
    (webhook.accountAddresses.length + newAccountAddresses.length ≤ 100000 →
      ∃ payload, appendAddressesToWebhook webhook newAccountAddresses = .ok payload ∧
        payload.accountAddresses =
          some (webhook.accountAddresses ++ newAccountAddresses)) := by
  constructor
  · intro h
    simp only [appendAddressesToWebhook]
    rw [if_pos (by rw [List.length_append]; omega)]
  · intro h
    refine ⟨editWebhookMerge webhook
      { accountAddresses := some (webhook.accountAddresses ++ newAccountAddresses) },
      ?_, rfl⟩
    simp only [appendAddressesToWebhook]
    rw [if_neg (by rw [List.length_append]; omega)]

/-- C2 witness: appending one address to a 100,000-address webhook fails with
the capacity error; appending one address to a two-address webhook writes
exactly the concatenation. -/
theorem appendAddressesToWebhook_capacity_witness :
    (bigWebhookFx.accountAddresses.length + ["extra"].length > 100000 ∧
      appendAddressesToWebhook bigWebhookFx ["extra"] =
        .error ("error during appendAddressesToWebhook: Error: " ++
          "a single webhook cannot contain more than 100,000 addresses")) ∧
    (webhookFx.accountAddresses.length + ["addr3"].length ≤ 100000 ∧
      ∃ payload, appendAddressesToWebhook webhookFx ["addr3"] = .ok payload ∧
        payload.accountAddresses =
          some (webhookFx.accountAddresses ++ ["addr3"])) :=
  ⟨⟨by
      rw [show bigWebhookFx.accountAddresses = List.replicate 100000 "addr" from rfl,
        List.length_replicate]
      decide,
    (appendAddressesToWebhook_capacity bigWebhookFx ["extra"]).1
      (by
        rw [show bigWebhookFx.accountAddresses = List.replicate 100000 "addr" from rfl,
          List.length_replicate]
        decide)⟩,
   ⟨by decide,
    (appendAddressesToWebhook_capacity webhookFx ["addr3"]).2 (by decide)⟩⟩

/-- C3: every caller-mutable field of the merged edit payload takes the
caller's value when provided and otherwise the existing record's current
value; all eight fields follow this same fallback rule. -/
theorem editWebhookMerge_fallback (w : Webhook) (e : EditWebhookRequest) :
    (editWebhookMerge w e).webhookURL = some (e.webhookURL.getD w.webhookURL) ∧
    (editWebhookMerge w e).transactionTypes =
      some (e.transactionTypes.getD w.transactionTypes) ∧
    (editWebhookMerge w e).accountAddresses =
      some (e.accountAddresses.getD w.accountAddresses) ∧
    (editWebhookMerge w e).accountAddressOwners =
      e.accountAddressOwners.or w.accountAddressOwners ∧
    (editWebhookMerge w e).webhookType = e.webhookType.or w.webhookType ∧
    (editWebhookMerge w e).authHeader = e.authHeader.or w.authHeader ∧
    (editWebhookMerge w e).txnStatus = e.txnStatus.or w.txnStatus ∧
    (editWebhookMerge w e).encoding = e.encoding.or w.encoding := by
  obtain ⟨u, t, a, o, wt, ah, ts, en⟩ := e
  refine ⟨?_, ?_, ?_, ?_, ?_, ?_, ?_, ?_⟩ <;>
    simp only [editWebhookMerge] <;>
    first
    | (cases u <;> rfl)
    | (cases t <;> rfl)
    | (cases a <;> rfl)
    | (cases o <;> rfl)
    | (cases wt <;> rfl)
    | (cases ah <;> rfl)
    | (cases ts <;> rfl)
    | (cases en <;> rfl)

/-- C4 counterexample: a collection query with NEITHER selector kind present
is not rejected. `getMintlist` forwards the remote response instead of
failing, and `createCollectionWebhook` proceeds through the drain to issue
its create call — contradicting the claim that both fail with an
InvalidQuery error before issuing any remote call. -/
theorem neitherSelector_not_rejected :
    getMintlist { query := some {} } (.ok pageFinal) = .ok pageFinal ∧
    createCollectionWebhook { collectionRequestFx with collectionQuery := some {} }
        [.ok pageFinal] =
      .ok { webhookURL := "https://example.com/hook"
            transactionTypes := ["NFT_SALE"]
            accountAddresses := ["mintB"] } :=
  ⟨rfl, rfl⟩

/-- C4 amended: a query whose carrying object is present but with neither
selector kind set passes validation in both `createCollectionWebhook` and
`getMintlist`; in particular `getMintlist` issues the remote call and
returns its response. Only an absent carrying object or both selectors
present are rejected. -/
theorem neitherSelector_passes_validation (cq : CollectionIdentifier)
    (opts : Option HeliusOptions) (r : MintlistResponse)
    (h1 : cq.firstVerifiedCreators = none)
    (h2 : cq.verifiedCollectionAddresses = none) :
    validateMintlistQuery (some cq) = none ∧
    validateCollectionQuery (some cq) = none ∧
    getMintlist { query := some cq, options := opts } (.ok r) = .ok r := by
  refine ⟨?_, ?_, ?_⟩ <;>
    simp [validateMintlistQuery, validateCollectionQuery, getMintlist, h1, h2]

/-- C4 amended witness: the empty collection query concretely passes both
validations and `getMintlist` forwards the response. -/
theorem neitherSelector_passes_validation_witness :
    (({} : CollectionIdentifier).firstVerifiedCreators = none ∧
      ({} : CollectionIdentifier).verifiedCollectionAddresses = none) ∧
    (validateMintlistQuery (some {}) = none ∧
      validateCollectionQuery (some {}) = none ∧
      getMintlist { query := some {}, options := none } (.ok pageFinal) =
        .ok pageFinal) :=
  ⟨⟨rfl, rfl⟩, neitherSelector_passes_validation {} none pageFinal rfl rfl⟩

/-- C5: validation fails iff the carrying query object is absent or both
selector kinds are defined — for the `getMintlist` validation, for the
`createCollectionWebhook` validation, and `getMintlist` forwards the remote
response exactly when its validation passes. -/
theorem validation_fails_iff (q : Option CollectionIdentifier) :
    ((validateMintlistQuery q).isSome = true ↔
      (q = none ∨ ∃ cq, q = some cq ∧ cq.firstVerifiedCreators.isSome = true ∧
        cq.verifiedCollectionAddresses.isSome = true)) ∧
    ((validateCollectionQuery q).isSome = true ↔
      (q = none ∨ ∃ cq, q = some cq ∧ cq.firstVerifiedCreators.isSome = true ∧
        cq.verifiedCollectionAddresses.isSome = true)) ∧
    (∀ (opts : Option HeliusOptions) (r : MintlistResponse),
      getMintlist { query := q, options := opts } (.ok r) = .ok r ↔
        validateMintlistQuery q = none) := by
  cases q with
  | none => simp [validateMintlistQuery, validateCollectionQuery, getMintlist]
  | some cq =>
    cases h1 : cq.firstVerifiedCreators <;>
      cases h2 : cq.verifiedCollectionAddresses <;>
        simp [validateMintlistQuery, validateCollectionQuery, getMintlist, h1, h2]

/-- C6: the payload written by `removeAddressesFromWebhook` carries the
existing address set filtered to exclude every address in the removal list
(exact match); removing absent addresses leaves the set unchanged, removing
every address yields the empty set, and removal is idempotent. -/
theorem removeAddressesFromWebhook_filter (webhook : Webhook)
    (addressesToRemove : List String) :
    (removeAddressesFromWebhook webhook addressesToRemove).accountAddresses =
      some (webhook.accountAddresses.filter
        (fun a => !(addressesToRemove.contains a))) ∧
    ((∀ r ∈ addressesToRemove, r ∉ webhook.accountAddresses) →
      (removeAddressesFromWebhook webhook addressesToRemove).accountAddresses =
        some webhook.accountAddresses) ∧
    ((∀ a ∈ webhook.accountAddresses, a ∈ addressesToRemove) →
      (removeAddressesFromWebhook webhook addressesToRemove).accountAddresses =
        some []) ∧
    (removeAddresses (removeAddresses webhook.accountAddresses addressesToRemove)
        addressesToRemove =
      removeAddresses webhook.accountAddresses addressesToRemove) := by
  refine ⟨rfl, ?_, ?_, ?_⟩
  · intro h
    have heq : webhook.accountAddresses.filter
        (fun a => !(addressesToRemove.contains a)) = webhook.accountAddresses := by
      refine List.filter_eq_self.mpr (fun a ha => ?_)
      simp only [Bool.not_eq_true']
      simpa using fun hr => h a hr ha
    simp only [removeAddressesFromWebhook, editWebhookMerge, removeAddresses, heq]
  · intro h
    have heq : webhook.accountAddresses.filter
        (fun a => !(addressesToRemove.contains a)) = [] := by
      refine List.filter_eq_nil_iff.mpr (fun a ha => ?_)
      simpa using h a ha
    simp only [removeAddressesFromWebhook, editWebhookMerge, removeAddresses, heq]
  · simp only [removeAddresses]
    exact List.filter_eq_self.mpr (fun a ha => (List.mem_filter.mp ha).2)

/-- C6 witness: removing an absent address from the concrete webhook leaves
its set unchanged; removing both of its addresses empties it. -/
theorem removeAddressesFromWebhook_filter_witness :
    ((∀ r ∈ ["zzz"], r ∉ webhookFx.accountAddresses) ∧
      (removeAddressesFromWebhook webhookFx ["zzz"]).accountAddresses =
        some webhookFx.accountAddresses) ∧
    ((∀ a ∈ webhookFx.accountAddresses, a ∈ ["addr1", "addr2"]) ∧
      (removeAddressesFromWebhook webhookFx ["addr1", "addr2"]).accountAddresses =
        some []) :=
  ⟨⟨by decide,
    (removeAddressesFromWebhook_filter webhookFx ["zzz"]).2.1 (by decide)⟩,
   ⟨by decide,
    (removeAddressesFromWebhook_filter webhookFx ["addr1", "addr2"]).2.2.1
      (by decide)⟩⟩

/-- Field-by-field description of the payload `createCollectionWebhook`
builds: URL and transaction types from the request, addresses from the
drained mintlist, truthy `authHeader`/`webhookType` carried over, everything
else absent. -/
theorem buildCollectionPayload_fields (request : CreateCollectionWebhookRequest)
    (mintlist : List MintlistItem) :
    (buildCollectionPayload request mintlist).webhookURL = request.webhookURL ∧
    (buildCollectionPayload request mintlist).transactionTypes =
      request.transactionTypes ∧
    (buildCollectionPayload request mintlist).accountAddresses =
      mintlist.map (fun x => x.mint) ∧
    (buildCollectionPayload request mintlist).authHeader =
      (if truthyStr request.authHeader then request.authHeader else none) ∧
    (buildCollectionPayload request mintlist).webhookType =
      (if truthyStr request.webhookType then request.webhookType else none) ∧
    (buildCollectionPayload request mintlist).accountAddressOwners = none ∧
    (buildCollectionPayload request mintlist).txnStatus = none ∧
    (buildCollectionPayload request mintlist).encoding = none := by
  simp only [buildCollectionPayload]
  by_cases h1 : truthyStr request.authHeader <;>
    by_cases h2 : truthyStr request.webhookType <;>
      simp [h1, h2]

/-- Inversion: whenever `createCollectionWebhook` issues its create call, the
submitted payload is exactly `buildCollectionPayload` applied to the drained
mintlist. -/
theorem createCollectionWebhook_ok_inv (request : CreateCollectionWebhookRequest)
    (trace : List (Except String MintlistResponse))
    (payload : CreateWebhookRequest) (mintlist : List MintlistItem) (n : Nat)
    (hdrain : drainMintlist trace = .ok (mintlist, n))
    (hok : createCollectionWebhook request trace = .ok payload) :
    payload = buildCollectionPayload request mintlist := by
  simp only [createCollectionWebhook] at hok
  cases hv : validateCollectionQuery request.collectionQuery with
  | some msg => rw [hv] at hok; cases hok
  | none =>
    rw [hv, hdrain] at hok
    exact (Except.ok.inj hok).symm

/-- C7: whenever `createCollectionWebhook` completes its drain and issues its
create call, the submitted payload's address list is exactly the `mint` field
of each drained item in drain order, and `authHeader`/`webhookType` appear in
the payload only when the caller supplied them — an omitted field stays
absent rather than becoming an explicit empty value. -/
theorem createCollectionWebhook_payload (request : CreateCollectionWebhookRequest)
    (trace : List (Except String MintlistResponse))
    (payload : CreateWebhookRequest) (mintlist : List MintlistItem) (n : Nat)
    (hdrain : drainMintlist trace = .ok (mintlist, n))
    (hok : createCollectionWebhook request trace = .ok payload) :
    payload.accountAddresses = mintlist.map (fun x => x.mint) ∧
    (request.authHeader = none → payload.authHeader = none) ∧
    (∀ v, payload.authHeader = some v → request.authHeader = some v) ∧
    (request.webhookType = none → payload.webhookType = none) ∧
    (∀ v, payload.webhookType = some v → request.webhookType = some v) := by
  obtain rfl := createCollectionWebhook_ok_inv request trace payload mintlist n
    hdrain hok
  obtain ⟨-, -, haddr, hauth, htype, -, -, -⟩ :=
    buildCollectionPayload_fields request mintlist
  refine ⟨haddr, ?_, ?_, ?_, ?_⟩
  · intro hnone
    rw [hauth, hnone]
    simp [truthyStr]
  · intro v hv
    rw [hauth] at hv
    by_cases ht : truthyStr request.authHeader
    · rwa [if_pos ht] at hv
    · rw [if_neg ht] at hv; cases hv
  · intro hnone
    rw [htype, hnone]
    simp [truthyStr]
  · intro v hv
    rw [htype] at hv
    by_cases ht : truthyStr request.webhookType
    · rwa [if_pos ht] at hv
    · rw [if_neg ht] at hv; cases hv

/-- C7 witness: a concrete one-page drain with neither optional field
supplied yields a payload with exactly the drained mint and no
`authHeader`/`webhookType`. -/
theorem createCollectionWebhook_payload_witness :
    (drainMintlist [Except.ok pageFinal] = .ok ([itemB], 1) ∧
      createCollectionWebhook collectionRequestFx [Except.ok pageFinal] =
        .ok (buildCollectionPayload collectionRequestFx [itemB])) ∧
    ((buildCollectionPayload collectionRequestFx [itemB]).accountAddresses =
        [itemB].map (fun x => x.mint) ∧
      (collectionRequestFx.authHeader = none →
        (buildCollectionPayload collectionRequestFx [itemB]).authHeader = none) ∧
      (∀ v, (buildCollectionPayload collectionRequestFx [itemB]).authHeader =
          some v → collectionRequestFx.authHeader = some v) ∧
      (collectionRequestFx.webhookType = none →
        (buildCollectionPayload collectionRequestFx [itemB]).webhookType = none) ∧
      (∀ v, (buildCollectionPayload collectionRequestFx [itemB]).webhookType =
          some v → collectionRequestFx.webhookType = some v)) :=
  ⟨⟨rfl, rfl⟩,
    createCollectionWebhook_payload collectionRequestFx [Except.ok pageFinal]
      (buildCollectionPayload collectionRequestFx [itemB]) [itemB] 1 rfl rfl⟩

/-- C8: when any page request of the drain fails, `createCollectionWebhook`
fails with an error naming the operation; no partially accumulated mintlist
is returned and no create call is issued (the result is `.error`, never
`.ok`). -/
theorem createCollectionWebhook_allOrNothing (request : CreateCollectionWebhookRequest)
    (trace : List (Except String MintlistResponse)) (e : String)
    (hvalid : validateCollectionQuery request.collectionQuery = none)
    (hdrain : drainMintlist trace = .error e) :
    createCollectionWebhook request trace =
      .error ("error during createCollectionWebhook: " ++ e) := by
  simp only [createCollectionWebhook, hvalid, hdrain]

/-- C8 witness: a drain whose second page request fails discards the first
page's accumulated items and produces only the operation-named error. -/
theorem createCollectionWebhook_allOrNothing_witness :
    (validateCollectionQuery collectionRequestFx.collectionQuery = none ∧
      drainMintlist [Except.ok pageWithToken,
        Except.error "error during getMintlist: network error"] =
        .error "error during getMintlist: network error") ∧
    createCollectionWebhook collectionRequestFx
        [Except.ok pageWithToken,
          Except.error "error during getMintlist: network error"] =
      .error ("error during createCollectionWebhook: " ++
        "error during getMintlist: network error") :=
  ⟨⟨rfl, rfl⟩,
    createCollectionWebhook_allOrNothing collectionRequestFx
      [Except.ok pageWithToken,
        Except.error "error during getMintlist: network error"]
      "error during getMintlist: network error" rfl rfl⟩

/-- C9: a page response whose pagination token is the empty string (or
absent/null) terminates the drain exactly as a missing token would: no
further page request is issued regardless of what the server could still
serve, and the items accumulated so far become the result. -/
theorem emptyToken_terminates (r : MintlistResponse)
    (tail : List (Except String MintlistResponse))
    (h : r.paginationToken = some "" ∨ r.paginationToken = none) :
    drainMintlist (Except.ok r :: tail) = .ok (r.result, 1) := by
  rw [drainMintlist.eq_def]
  simp only
  rw [drainFrom.eq_def]
  rcases h with h | h <;> simp [truthyStr, h]

/-- C9 witness: a first page carrying the empty-string token stops the drain
at once even though the server trace has another page available. -/
theorem emptyToken_terminates_witness :
    (({ result := [itemA], paginationToken := some "" } :
        MintlistResponse).paginationToken = some "" ∨
      ({ result := [itemA], paginationToken := some "" } :
        MintlistResponse).paginationToken = none) ∧
    drainMintlist (Except.ok { result := [itemA], paginationToken := some "" } ::
        [Except.ok pageFinal]) =
      .ok (({ result := [itemA], paginationToken := some "" } :
        MintlistResponse).result, 1) :=
  ⟨Or.inl rfl,
    emptyToken_terminates { result := [itemA], paginationToken := some "" }
      [Except.ok pageFinal] (Or.inl rfl)⟩

/-- C10: whenever `createCollectionWebhook` issues its create call, the
submitted payload ignores any caller-supplied `accountAddresses`,
`accountAddressOwners`, `txnStatus` and `encoding`: its address list is the
drained mints, those three optional fields are absent, and only the
request's URL and transaction types are carried over. -/
theorem createCollectionWebhook_ignores_extras (request : CreateCollectionWebhookRequest)
    (trace : List (Except String MintlistResponse))
    (payload : CreateWebhookRequest) (mintlist : List MintlistItem) (n : Nat)
    (hdrain : drainMintlist trace = .ok (mintlist, n))
    (hok : createCollectionWebhook request trace = .ok payload) :
    payload.accountAddresses = mintlist.map (fun x => x.mint) ∧
    payload.accountAddressOwners = none ∧
    payload.txnStatus = none ∧
    payload.encoding = none ∧
    payload.webhookURL = request.webhookURL ∧
    payload.transactionTypes = request.transactionTypes := by
  obtain rfl := createCollectionWebhook_ok_inv request trace payload mintlist n
    hdrain hok
  obtain ⟨hurl, htypes, haddr, -, -, howners, hstatus, henc⟩ :=
    buildCollectionPayload_fields request mintlist
  exact ⟨haddr, howners, hstatus, henc, hurl, htypes⟩

/-- C10 witness: a request supplying `accountAddresses`,
`accountAddressOwners`, `txnStatus` and `encoding` still produces a create
payload carrying only the drained mint and none of those extras. -/
theorem createCollectionWebhook_ignores_extras_witness :
    (drainMintlist [Except.ok pageFinal] = .ok ([itemB], 1) ∧
      createCollectionWebhook extrasRequestFx [Except.ok pageFinal] =
        .ok (buildCollectionPayload extrasRequestFx [itemB])) ∧
    ((buildCollectionPayload extrasRequestFx [itemB]).accountAddresses =
        [itemB].map (fun x => x.mint) ∧
      (buildCollectionPayload extrasRequestFx [itemB]).accountAddressOwners = none ∧
      (buildCollectionPayload extrasRequestFx [itemB]).txnStatus = none ∧
      (buildCollectionPayload extrasRequestFx [itemB]).encoding = none ∧
      (buildCollectionPayload extrasRequestFx [itemB]).webhookURL =
        extrasRequestFx.webhookURL ∧
      (buildCollectionPayload extrasRequestFx [itemB]).transactionTypes =
        extrasRequestFx.transactionTypes) :=
  ⟨⟨rfl, rfl⟩,
    createCollectionWebhook_ignores_extras extrasRequestFx [Except.ok pageFinal]
      (buildCollectionPayload extrasRequestFx [itemB]) [itemB] 1 rfl rfl⟩
